import Mathlib

/-!
# Verification of the TrueAttendance Simulator

Shallow embedding of `src/useless/true_attendance_simulator.py`: a rotating
secret code held in an external key-value store, submissions checked against
it, and a present-set cleared on each rotation.

Modelling conventions:
* The three Redis records become a `Store` structure.  A key that may be
  absent is an `Option`.
* Timestamps (`time.time()` floats) are modelled as rationals `ℚ`; only
  subtraction and ordering are used by the code.
* A Python exception (e.g. `.decode` on `None`, attribute access on a `None`
  client) is modelled as `Option.none` in the operation's result.
* `random.choices(string.ascii_uppercase + string.digits, k=8)` is modelled
  by a pick function `Fin 8 → Fin 36` selecting into the alphabet list.
* The Redis set `attendance_log` is a `Finset String`; `sadd` is `insert`,
  `smembers` followed by `sorted` is `Finset.sort (· ≤ ·)`.
-/

namespace Atten

/-- `SECRET_REFRESH_INTERVAL_SECONDS = 60` from the configuration block. -/
def SECRET_REFRESH_INTERVAL_SECONDS : ℚ := 60

/-- `string.ascii_uppercase + string.digits`: the 36-symbol alphabet codes
are drawn from. -/
def ALPHABET : List Char :=
  ['A','B','C','D','E','F','G','H','I','J','K','L','M',
   'N','O','P','Q','R','S','T','U','V','W','X','Y','Z',
   '0','1','2','3','4','5','6','7','8','9']

theorem ALPHABET_length : ALPHABET.length = 36 := rfl

/-- `''.join(random.choices(ALPHABET, k=8))`: the randomness source is
abstracted into the pick function `picks`. -/
def genCode (picks : Fin 8 → Fin 36) : String :=
  ⟨(List.finRange 8).map fun i => ALPHABET.get ((picks i).cast ALPHABET_length.symm)⟩

/-- The three logical records held in the key-value store.  `none` models an
absent key; the Redis set becomes a `Finset`. -/
structure Store where
  secret_code : Option String
  secret_timestamp : Option ℚ
  attendance_log : Finset String
deriving DecidableEq

/-- Outcome of `verify_attendance`: the HTTP 400 missing-field failure, the
HTTP 200 success, or the HTTP 403 mismatch failure. -/
inductive SubmitResult where
  | missingField
  | accepted
  | rejected
deriving DecidableEq

/-- Python truthiness of `data.get(...)` for a string field: `not x` is true
exactly when the field is absent or the empty string. -/
def pyFalsy : Option String → Bool
  | none => true
  | some s => s == ""

/-- `get_or_refresh_secret()`.  `kvAvail` models whether the Redis client
exists (`kv` is not `None`); `now` is `time.time()`; `picks` the randomness.
Returns `none` when the Python code would raise (decoding an absent
`secret_code` in the non-stale branch). -/
def get_or_refresh_secret (kvAvail : Bool) (s : Store) (now : ℚ)
    (picks : Fin 8 → Fin 36) : Option (String × Store) :=
  if !kvAvail then
    some ("KV_NOT_AVAILABLE", s)
  else
    let last_update_time : ℚ := s.secret_timestamp.getD 0
    if now - last_update_time > SECRET_REFRESH_INTERVAL_SECONDS then
      let new_secret := genCode picks
      some (new_secret,
        { secret_code := some new_secret
          secret_timestamp := some now
          attendance_log := ∅ })
    else
      s.secret_code.map fun c => (c, s)

/-- `verify_attendance()` with the request fields already extracted:
`student_id` and `submitted_code` are the results of `data.get(...)`.
Returns `none` when the Python code would raise (`kv.get` on a `None`
client, or `.decode` on an absent `secret_code`). -/
def verify_attendance (kvAvail : Bool) (s : Store)
    (student_id submitted_code : Option String) : Option (SubmitResult × Store) :=
  if pyFalsy student_id || pyFalsy submitted_code then
    some (SubmitResult.missingField, s)
  else if !kvAvail then
    none
  else
    match s.secret_code with
    | none => none
    | some current_secret =>
      if submitted_code.getD "" = current_secret then
        some (SubmitResult.accepted,
          { s with attendance_log := insert (student_id.getD "") s.attendance_log })
      else
        some (SubmitResult.rejected, s)

/-- `get_attendance_log()`: fetch the members of the set and sort them.
Returns `none` when the client is `None` (attribute error). -/
def get_attendance_log (kvAvail : Bool) (s : Store) :
    Option (List String × Store) :=
  if !kvAvail then none
  else some (s.attendance_log.sort (· ≤ ·), s)

/-- A never-rotated store: none of the three keys has ever been written. -/
def emptyStore : Store :=
  { secret_code := none
    secret_timestamp := none
    attendance_log := ∅ }

/-- A sample store used to instantiate hypothesis-bearing theorems. -/
def sampleStore : Store :=
  { secret_code := some "AB12CD34"
    secret_timestamp := some 100
    attendance_log := ∅ }

theorem genCode_length (picks : Fin 8 → Fin 36) : (genCode picks).length = 8 := by
  simp [genCode, String.length]

theorem genCode_mem_alphabet (picks : Fin 8 → Fin 36) :
    ∀ c ∈ (genCode picks).data, c ∈ ALPHABET := by
  intro c hc
  simp only [genCode, List.mem_map] at hc
  obtain ⟨i, -, rfl⟩ := hc
  exact List.get_mem _ _ _

/-- C2: when the elapsed time since `secret_timestamp` exceeds the rotation
interval, `get_or_refresh_secret` produces an 8-character code over the
alphabet {A–Z, 0–9}, writes it as `secret_code`, stamps `secret_timestamp`
with the current time, clears the present-set in the same update, and
returns the new code. -/
theorem C2_rotation_refreshes (s : Store) (now : ℚ) (picks : Fin 8 → Fin 36)
    (hstale : now - s.secret_timestamp.getD 0 > SECRET_REFRESH_INTERVAL_SECONDS) :
    ∃ c, get_or_refresh_secret true s now picks =
        some (c, { secret_code := some c
                   secret_timestamp := some now
                   attendance_log := ∅ }) ∧
      c.length = 8 ∧ ∀ ch ∈ c.data, ch ∈ ALPHABET := by
  refine ⟨genCode picks, ?_, genCode_length picks, genCode_mem_alphabet picks⟩
  simp only [get_or_refresh_secret, Bool.not_true, Bool.false_eq_true, if_false,
    if_pos hstale]

/-- C2 witness: rotation at a concrete stale store. -/
theorem C2_rotation_refreshes_witness :
    ∃ c, get_or_refresh_secret true sampleStore 200 (fun _ => 0) =
        some (c, { secret_code := some c
                   secret_timestamp := some 200
                   attendance_log := ∅ }) ∧
      c.length = 8 ∧ ∀ ch ∈ c.data, ch ∈ ALPHABET :=
  C2_rotation_refreshes sampleStore 200 (fun _ => 0)
    (by norm_num [sampleStore, SECRET_REFRESH_INTERVAL_SECONDS])

/-- C3: two `get_or_refresh_secret` calls whose times both lie within the
rotation interval of the last rotation return the same code, and neither
call changes the store. -/
theorem C3_idempotent_within_window (s : Store) (ts : ℚ) (sc : String)
    (now₁ now₂ : ℚ) (p₁ p₂ : Fin 8 → Fin 36)
    (hts : s.secret_timestamp = some ts) (hsc : s.secret_code = some sc)
    (h₁ : now₁ - ts ≤ SECRET_REFRESH_INTERVAL_SECONDS)
    (h₂ : now₂ - ts ≤ SECRET_REFRESH_INTERVAL_SECONDS) :
    get_or_refresh_secret true s now₁ p₁ = some (sc, s) ∧
      get_or_refresh_secret true s now₂ p₂ = some (sc, s) := by
  constructor <;>
  · simp only [get_or_refresh_secret, Bool.not_true, Bool.false_eq_true, if_false,
      hts, Option.getD_some, if_neg (not_lt.mpr h₁), if_neg (not_lt.mpr h₂), hsc]
    rfl

/-- C3 witness: two in-window reads of a concrete store. -/
theorem C3_idempotent_within_window_witness :
    get_or_refresh_secret true sampleStore 110 (fun _ => 0) =
        some ("AB12CD34", sampleStore) ∧
      get_or_refresh_secret true sampleStore 150 (fun _ => 1) =
        some ("AB12CD34", sampleStore) :=
  C3_idempotent_within_window sampleStore 100 "AB12CD34" 110 150 _ _
    rfl rfl (by norm_num [SECRET_REFRESH_INTERVAL_SECONDS])
    (by norm_num [SECRET_REFRESH_INTERVAL_SECONDS])

/-- C4: an identity present before a rotation is absent after it; the
rotation leaves the present-set empty. -/
theorem C4_rotation_clears_present_set (s : Store) (now : ℚ)
    (picks : Fin 8 → Fin 36) (id : String) (_hid : id ∈ s.attendance_log)
    (hstale : now - s.secret_timestamp.getD 0 > SECRET_REFRESH_INTERVAL_SECONDS) :
    ∃ c s', get_or_refresh_secret true s now picks = some (c, s') ∧
      s'.attendance_log = ∅ ∧ id ∉ s'.attendance_log := by
  obtain ⟨c, hc, -, -⟩ := C2_rotation_refreshes s now picks hstale
  exact ⟨c, _, hc, rfl, by simp⟩

/-- C4 witness: a concrete store with one member, rotated. -/
theorem C4_rotation_clears_present_set_witness :
    ∃ c s', get_or_refresh_secret true
        { secret_code := some "AB12CD34"
          secret_timestamp := some 100
          attendance_log := {"alice"} } 200 (fun _ => 0) = some (c, s') ∧
      s'.attendance_log = ∅ ∧ "alice" ∉ s'.attendance_log :=
  C4_rotation_clears_present_set _ 200 (fun _ => 0) "alice" (by decide)
    (by norm_num [SECRET_REFRESH_INTERVAL_SECONDS])

/-- C5 divergence witness: with the store unreachable, the code does not
fail; it returns the fabricated sentinel string `KV_NOT_AVAILABLE` as if it
were a code, leaving the (unreachable) store untouched. -/
theorem C5_unreachable_returns_sentinel :
    get_or_refresh_secret false sampleStore 0 (fun _ => 0) =
      some ("KV_NOT_AVAILABLE", sampleStore) := rfl

theorem pyFalsy_some_false {x : String} (h : x ≠ "") :
    pyFalsy (some x) = false := by
  simp [pyFalsy, h]

/-- C1: with non-empty identity and code and a stored secret, submitting the
stored secret is accepted and the identity appears in `list_present`;
submitting anything else is rejected and the store (hence the present-set)
is left unchanged. -/
theorem C1_submission_correctness (s : Store) (id code sc : String)
    (hid : id ≠ "") (hcode : code ≠ "") (hsc : s.secret_code = some sc) :
    (code = sc →
      ∃ s', verify_attendance true s (some id) (some code) =
          some (SubmitResult.accepted, s') ∧
        ∃ l, get_attendance_log true s' = some (l, s') ∧ id ∈ l) ∧
    (code ≠ sc →
      verify_attendance true s (some id) (some code) =
        some (SubmitResult.rejected, s)) := by
  have hv : verify_attendance true s (some id) (some code) =
      if code = sc then
        some (SubmitResult.accepted,
          { s with attendance_log := insert id s.attendance_log })
      else some (SubmitResult.rejected, s) := by
    simp [verify_attendance, pyFalsy_some_false hid, pyFalsy_some_false hcode, hsc]
  constructor
  · intro heq
    refine ⟨_, by rw [hv, if_pos heq], _, rfl, ?_⟩
    rw [Finset.mem_sort]
    exact Finset.mem_insert_self id s.attendance_log
  · intro hne
    rw [hv, if_neg hne]

/-- C1 witness: the right and the wrong code against a concrete store. -/
theorem C1_submission_correctness_witness :
    ("AB12CD34" = "AB12CD34" →
      ∃ s', verify_attendance true sampleStore (some "alice") (some "AB12CD34") =
          some (SubmitResult.accepted, s') ∧
        ∃ l, get_attendance_log true s' = some (l, s') ∧ "alice" ∈ l) ∧
    ("AB12CD34" ≠ "AB12CD34" →
      verify_attendance true sampleStore (some "alice") (some "AB12CD34") =
        some (SubmitResult.rejected, sampleStore)) :=
  C1_submission_correctness sampleStore "alice" "AB12CD34" "AB12CD34"
    (by decide) (by decide) rfl

/-- C6: if the identity or the code is absent or empty, `verify_attendance`
fails with the missing-field (HTTP 400) result and leaves the store — in
particular the present-set — unchanged, whatever the store's reachability. -/
theorem C6_missing_field (kvAvail : Bool) (s : Store)
    (sid code : Option String)
    (h : sid = none ∨ sid = some "" ∨ code = none ∨ code = some "") :
    verify_attendance kvAvail s sid code = some (SubmitResult.missingField, s) := by
  rcases h with h | h | h | h <;> subst h <;>
    simp [verify_attendance, pyFalsy]

/-- C6 witness: an empty identity with a well-formed code. -/
theorem C6_missing_field_witness :
    verify_attendance true sampleStore (some "") (some "ABC123") =
      some (SubmitResult.missingField, sampleStore) :=
  C6_missing_field true sampleStore (some "") (some "ABC123") (Or.inr (Or.inl rfl))

/-- C7: `verify_attendance` never rotates: whatever result it returns, the
stored `secret_code` and `secret_timestamp` are unchanged, and it accepts
only when the submitted code is exactly the currently stored secret. -/
theorem C7_no_rotation_on_submit (kvAvail : Bool) (s : Store)
    (sid code : Option String) (r : SubmitResult) (s' : Store)
    (h : verify_attendance kvAvail s sid code = some (r, s')) :
    s'.secret_code = s.secret_code ∧ s'.secret_timestamp = s.secret_timestamp ∧
      (r = SubmitResult.accepted → s.secret_code = some (code.getD "")) := by
  unfold verify_attendance at h
  split at h
  · simp only [Option.some.injEq, Prod.mk.injEq] at h
    obtain ⟨rfl, rfl⟩ := h
    exact ⟨rfl, rfl, by intro hr; cases hr⟩
  · split at h
    · cases h
    · split at h
      · cases h
      next sc hsc =>
        split at h
        next hEq =>
          simp only [Option.some.injEq, Prod.mk.injEq] at h
          obtain ⟨rfl, rfl⟩ := h
          exact ⟨rfl, rfl, fun _ => by rw [hsc, hEq]⟩
        · simp only [Option.some.injEq, Prod.mk.injEq] at h
          obtain ⟨rfl, rfl⟩ := h
          exact ⟨rfl, rfl, by intro hr; cases hr⟩

/-- C7 witness: an accepted submission against a concrete store. -/
theorem C7_no_rotation_on_submit_witness :
    ({ sampleStore with attendance_log := insert "alice" sampleStore.attendance_log
      } : Store).secret_code = sampleStore.secret_code ∧
    ({ sampleStore with attendance_log := insert "alice" sampleStore.attendance_log
      } : Store).secret_timestamp = sampleStore.secret_timestamp ∧
    (SubmitResult.accepted = SubmitResult.accepted →
      sampleStore.secret_code = some ((some "AB12CD34").getD "")) :=
  C7_no_rotation_on_submit true sampleStore (some "alice") (some "AB12CD34")
    SubmitResult.accepted _ rfl

/-- C8: `get_attendance_log` returns exactly the members of the present-set
in lexicographically ascending order, returns the empty sequence on the
empty set, and leaves the store unchanged. -/
theorem C8_list_present_sorted (s : Store) :
    ∃ l, get_attendance_log true s = some (l, s) ∧
      l.Sorted (· ≤ ·) ∧ (∀ x, x ∈ l ↔ x ∈ s.attendance_log) ∧
      (s.attendance_log = ∅ → l = []) := by
  refine ⟨s.attendance_log.sort (· ≤ ·), rfl, Finset.sort_sorted _ _,
    fun x => Finset.mem_sort _, fun he => ?_⟩
  rw [he]
  exact Finset.sort_empty _

/-- C9: submitting the same non-empty identity twice with the stored secret
leaves the store exactly as after the first submission, and the identity
appears exactly once in `list_present`. -/
theorem C9_idempotent_submission (s : Store) (id sc : String)
    (hid : id ≠ "") (hscne : sc ≠ "") (hsc : s.secret_code = some sc) :
    ∃ s₁, verify_attendance true s (some id) (some sc) =
        some (SubmitResult.accepted, s₁) ∧
      verify_attendance true s₁ (some id) (some sc) =
        some (SubmitResult.accepted, s₁) ∧
      ∃ l, get_attendance_log true s₁ = some (l, s₁) ∧ l.count id = 1 := by
  refine ⟨{ s with attendance_log := insert id s.attendance_log }, ?_, ?_, _, rfl, ?_⟩
  · simp [verify_attendance, pyFalsy_some_false hid, pyFalsy_some_false hscne, hsc]
  · simp [verify_attendance, pyFalsy_some_false hid, pyFalsy_some_false hscne, hsc,
      Finset.insert_idem]
  · exact List.count_eq_one_of_mem (Finset.sort_nodup _ _)
      ((Finset.mem_sort _).mpr (Finset.mem_insert_self _ _))

/-- C9 witness: a double submission against a concrete store. -/
theorem C9_idempotent_submission_witness :
    ∃ s₁, verify_attendance true sampleStore (some "alice") (some "AB12CD34") =
        some (SubmitResult.accepted, s₁) ∧
      verify_attendance true s₁ (some "alice") (some "AB12CD34") =
        some (SubmitResult.accepted, s₁) ∧
      ∃ l, get_attendance_log true s₁ = some (l, s₁) ∧ l.count "alice" = 1 :=
  C9_idempotent_submission sampleStore "alice" "AB12CD34" (by decide) (by decide) rfl

/-- C10: with the store reachable but `secret_code` never written, a
well-formed submission raises (models `.decode` on `None`) instead of
returning a rejection; with some code stored, the same submission returns
normally. -/
theorem C10_submit_crashes_uninitialized (s : Store) (id code : String)
    (hid : id ≠ "") (hcode : code ≠ "") :
    (s.secret_code = none →
      verify_attendance true s (some id) (some code) = none) ∧
    (∀ sc, s.secret_code = some sc →
      ∃ r s', verify_attendance true s (some id) (some code) = some (r, s')) := by
  constructor
  · intro hnone
    simp [verify_attendance, pyFalsy_some_false hid, pyFalsy_some_false hcode, hnone]
  · intro sc hsc
    by_cases hEq : code = sc
    · subst hEq
      refine ⟨SubmitResult.accepted,
        { s with attendance_log := insert id s.attendance_log }, ?_⟩
      simp [verify_attendance, pyFalsy_some_false hid, pyFalsy_some_false hcode, hsc]
    · exact ⟨SubmitResult.rejected, s, by
        simp [verify_attendance, pyFalsy_some_false hid, pyFalsy_some_false hcode,
          hsc, hEq]⟩

/-- C10 witness: a store with no `secret_code` record. -/
theorem C10_submit_crashes_uninitialized_witness :
    (emptyStore.secret_code = none →
      verify_attendance true emptyStore (some "alice") (some "ABC123") = none) ∧
    (∀ sc, emptyStore.secret_code = some sc →
      ∃ r s', verify_attendance true emptyStore (some "alice") (some "ABC123") =
        some (r, s')) :=
  C10_submit_crashes_uninitialized emptyStore "alice" "ABC123"
    (by decide) (by decide)

end Atten
